import Mathlib

/-!
Verification of the multi-rate sequencer in
`Course_2_Real-Time Embedded Systems Theory and Analysis/C2_A1_Safe_within_LUB_Disharmonic/seqgen3.c`.

The C program drives three worker services from a 10 ms interval timer.
On each SIGALRM tick the handler `Sequencer` posts a counting semaphore to
each service whose period divisor divides the pre-increment cycle count
(`seqCnt % 2`, `seqCnt % 10`, `seqCnt % 15`), increments `seqCnt`, and,
once `seqCnt >= sequencePeriods` (`LCM_PERIOD = 30`) or `abortTest` is set,
disarms the timer, posts one extra token to every service and raises the
per-service abort flags.  Each service loops on `sem_wait`, increments its
private count and emits a syslog record, re-checking its abort flag at the
top of the loop.

The development below is a shallow embedding of that code: the sequencer
tick is a pure state transformer, a run is its iteration (frozen once the
timer is disarmed, since no further SIGALRM arrives), and the service loop
body is a pure state transformer on the per-service state.
-/

/-- `LCM_PERIOD` from seqgen3.c line 125: total sequencer cycles of a run. -/
def LCM_PERIOD : Nat := 30

/-- `NUM_THREADS` from seqgen3.c line 120. -/
def NUM_THREADS : Nat := 3

/-- State touched by the `Sequencer` signal handler (seqgen3.c lines 138-149,
146, 431-434): the cycle counter `seqCnt`, the three semaphore counts, the
armed interval-timer values (`itime.it_interval.tv_nsec`,
`itime.it_value.tv_nsec`; the `tv_sec` parts are always 0 after arming), and
the three per-service abort flags.  `modS1`-`modS3` additionally record how
many of the semaphore posts were made by the modulo release rule (lines
471-477) as opposed to the forced shutdown posts (line 496); they are
observations of the code's posts, not extra program state. -/
structure SeqState where
  seqCnt : Nat
  semS1 : Nat
  semS2 : Nat
  semS3 : Nat
  modS1 : Nat
  modS2 : Nat
  modS3 : Nat
  itimeIntervalNsec : Nat
  itimeValueNsec : Nat
  abortS1 : Bool
  abortS2 : Bool
  abortS3 : Bool
  deriving DecidableEq, Repr

/-- A POSIX interval timer is armed iff its `it_value` is nonzero; `main`
arms it with 10000000 ns (lines 431-440) and the sequencer's shutdown branch
zeroes it (lines 488-492). -/
def SeqState.armed (s : SeqState) : Bool := s.itimeValueNsec != 0

/-- Program state right after `main` arms the timer (lines 138-149 global
initializers, `sem_init(..., 0)` at lines 308-310, timer armed at lines
431-440): cycle count 0, empty semaphores, clear abort flags. -/
def initialSeqState : SeqState :=
  { seqCnt := 0
    semS1 := 0, semS2 := 0, semS3 := 0
    modS1 := 0, modS2 := 0, modS3 := 0
    itimeIntervalNsec := 10000000
    itimeValueNsec := 10000000
    abortS1 := false, abortS2 := false, abortS3 := false }

/-- Lines 471-477 of seqgen3.c: the modulo release rule.  Each service whose
period divisor divides the current (pre-increment) `seqCnt` gets one
semaphore post; `seqCnt` is not modified here. -/
def seqReleasePhase (s : SeqState) : SeqState :=
  { s with
    semS1 := s.semS1 + (if s.seqCnt % 2 == 0 then 1 else 0)
    modS1 := s.modS1 + (if s.seqCnt % 2 == 0 then 1 else 0)
    semS2 := s.semS2 + (if s.seqCnt % 10 == 0 then 1 else 0)
    modS2 := s.modS2 + (if s.seqCnt % 10 == 0 then 1 else 0)
    semS3 := s.semS3 + (if s.seqCnt % 15 == 0 then 1 else 0)
    modS3 := s.modS3 + (if s.seqCnt % 15 == 0 then 1 else 0) }

/-- Lines 485-500 of seqgen3.c, body of the shutdown branch: zero the
interval timer (disarming it), post one extra token to every service, and
set every per-service abort flag. -/
def seqShutdown (s : SeqState) : SeqState :=
  { s with
    itimeIntervalNsec := 0
    itimeValueNsec := 0
    semS1 := s.semS1 + 1
    semS2 := s.semS2 + 1
    semS3 := s.semS3 + 1
    abortS1 := true, abortS2 := true, abortS3 := true }

/-- One tick of the `Sequencer` handler (seqgen3.c lines 462-502):
modulo releases on the pre-increment count, then `seqCnt++`, then the
shutdown branch if `abortTest || (seqCnt >= sequencePeriods)`. -/
def Sequencer (sequencePeriods : Nat) (abortTest : Bool) (s : SeqState) : SeqState :=
  let s1 := seqReleasePhase s
  let s2 := { s1 with seqCnt := s1.seqCnt + 1 }
  if abortTest || decide (sequencePeriods ≤ s2.seqCnt) then seqShutdown s2 else s2

/-- A run of the program: tick `n` executes the handler iff the interval
timer is still armed (a disarmed POSIX timer delivers no further SIGALRM).
`ab n` is the value of the global `abortTest` flag observed by tick `n`. -/
def seqRun (sequencePeriods : Nat) (ab : Nat → Bool) : Nat → SeqState
  | 0 => initialSeqState
  | n + 1 =>
    let s := seqRun sequencePeriods ab n
    if s.armed then Sequencer sequencePeriods (ab n) s else s

/-- The abort schedule of a run in which `abortTest` is never set. -/
def noAbort : Nat → Bool := fun _ => false

/-- The abort schedule of a run in which `abortTest` is set just before
tick `a` (and stays set). -/
def abortFrom (a : Nat) : Nat → Bool := fun n => decide (a ≤ n)

/-- Number of ticks among cycle counts `0, ..., n-1` at which the modulo
rule `seqCnt % d == 0` (lines 471-477) fires for a divisor `d`. -/
def releaseCount (d n : Nat) : Nat := (List.range n).countP (fun c => c % d == 0)

theorem releaseCount_zero (d : Nat) : releaseCount d 0 = 0 := rfl

theorem releaseCount_succ (d n : Nat) :
    releaseCount d (n + 1) = releaseCount d n + (if n % d == 0 then 1 else 0) := by
  simp only [releaseCount, List.range_succ, List.countP_append, List.countP_cons,
    List.countP_nil, Nat.zero_add]

/-- Closed form: among cycle counts `0..n` there are `n / d + 1` multiples
of the divisor `d`. -/
theorem releaseCount_formula (d n : Nat) :
    releaseCount d (n + 1) = n / d + 1 := by
  induction n with
  | zero =>
    simp [releaseCount_succ, releaseCount_zero, Nat.zero_mod, Nat.zero_div]
  | succ n ih =>
    rw [releaseCount_succ, ih, Nat.succ_div]
    by_cases h : d ∣ (n + 1)
    · have hm : (n + 1) % d = 0 := Nat.dvd_iff_mod_eq_zero.mp h
      simp [h, hm]
    · have hm : (n + 1) % d ≠ 0 := fun hc => h (Nat.dvd_iff_mod_eq_zero.mpr hc)
      simp [h, hm]

/-- The state of a run whose shutdown branch has not yet been entered,
after `n` ticks: the cycle counter equals the tick count, every semaphore
holds exactly the modulo-rule posts, the timer is still armed, the abort
flags are clear. -/
def runningState (n : Nat) : SeqState :=
  { seqCnt := n
    semS1 := releaseCount 2 n, semS2 := releaseCount 10 n, semS3 := releaseCount 15 n
    modS1 := releaseCount 2 n, modS2 := releaseCount 10 n, modS3 := releaseCount 15 n
    itimeIntervalNsec := 10000000
    itimeValueNsec := 10000000
    abortS1 := false, abortS2 := false, abortS3 := false }

theorem seqRun_running (sp : Nat) (ab : Nat → Bool) :
    ∀ n, n < sp → (∀ m, m < n → ab m = false) → seqRun sp ab n = runningState n := by
  intro n
  induction n with
  | zero =>
    intro _ _
    simp [seqRun, initialSeqState, runningState, releaseCount_zero]
  | succ n ih =>
    intro hlt hab
    have hrun : seqRun sp ab n = runningState n :=
      ih (Nat.lt_of_succ_lt hlt) (fun m hm => hab m (Nat.lt_succ_of_lt hm))
    have habn : ab n = false := hab n (Nat.lt_succ_self n)
    have hsp : ¬ (sp ≤ n + 1) := Nat.not_le_of_lt hlt
    simp only [seqRun, hrun, runningState, SeqState.armed, Sequencer, seqReleasePhase,
      habn, hsp, releaseCount_succ]
    simp

theorem seqRun_step_terminate (sp n : Nat) (ab : Nat → Bool)
    (hn : n < sp) (hab : ∀ m, m < n → ab m = false)
    (hterm : ab n = true ∨ sp ≤ n + 1) :
    seqRun sp ab (n + 1) =
      { seqCnt := n + 1
        semS1 := releaseCount 2 (n + 1) + 1
        semS2 := releaseCount 10 (n + 1) + 1
        semS3 := releaseCount 15 (n + 1) + 1
        modS1 := releaseCount 2 (n + 1)
        modS2 := releaseCount 10 (n + 1)
        modS3 := releaseCount 15 (n + 1)
        itimeIntervalNsec := 0
        itimeValueNsec := 0
        abortS1 := true, abortS2 := true, abortS3 := true } := by
  have hrun : seqRun sp ab n = runningState n := seqRun_running sp ab n hn hab
  have hcond : (ab n || decide (sp ≤ n + 1)) = true := by
    rcases hterm with h | h
    · simp [h]
    · simp [h]
  simp only [seqRun, hrun, runningState, SeqState.armed, Sequencer, seqReleasePhase,
    seqShutdown, releaseCount_succ]
  simp only [hcond]
  simp [releaseCount_succ]

theorem seqRun_frozen (sp : Nat) (ab : Nat → Bool) (n : Nat)
    (h : (seqRun sp ab n).armed = false) :
    ∀ k, seqRun sp ab (n + k) = seqRun sp ab n := by
  intro k
  induction k with
  | zero => rfl
  | succ k ih =>
    show (let s := seqRun sp ab (n + k); if s.armed then _ else s) = _
    simp only [ih, h]
    simp

/-- A completed abort-free run: after `sp` ticks (`sp ≥ 1`) the timer is
disarmed, each semaphore holds its modulo-rule posts plus the one forced
shutdown post, and every abort flag is set. -/
theorem seqRun_complete (sp : Nat) (hsp : 1 ≤ sp) :
    seqRun sp noAbort sp =
      { seqCnt := sp
        semS1 := releaseCount 2 sp + 1
        semS2 := releaseCount 10 sp + 1
        semS3 := releaseCount 15 sp + 1
        modS1 := releaseCount 2 sp
        modS2 := releaseCount 10 sp
        modS3 := releaseCount 15 sp
        itimeIntervalNsec := 0
        itimeValueNsec := 0
        abortS1 := true, abortS2 := true, abortS3 := true } := by
  obtain ⟨k, rfl⟩ : ∃ k, sp = k + 1 := ⟨sp - 1, (Nat.succ_pred_eq_of_pos hsp).symm⟩
  exact seqRun_step_terminate (k + 1) k noAbort (Nat.lt_succ_self k)
    (fun _ _ => rfl) (Or.inr (Nat.le_refl _))

set_option maxRecDepth 10000 in
/-- Claim C1, counterexample.  The claim states that a completed run of `N`
base ticks posts `N / d + 1` modulo-rule tokens to the service with divisor
`d`.  At the program's own configuration (`sequencePeriods = LCM_PERIOD =
30`, divisor 2) the completed run posts 15 modulo-rule tokens, not
`30 / 2 + 1 = 16`. -/
theorem release_count_claim_refuted :
    ¬ ((seqRun 30 noAbort 30).modS1 = 30 / 2 + 1) := by decide

/-- Claim C1, amended.  For every completed abort-free run of `N ≥ 1` base
ticks, the modulo rule posts `(N - 1) / d + 1` release tokens to the service
with period divisor `d` (`⌈N / d⌉`, counting the tick-0 release), for each of
the three services with divisors 2, 10 and 15. -/
theorem release_count_amended (sp : Nat) (hsp : 1 ≤ sp) :
    (seqRun sp noAbort sp).modS1 = (sp - 1) / 2 + 1 ∧
    (seqRun sp noAbort sp).modS2 = (sp - 1) / 10 + 1 ∧
    (seqRun sp noAbort sp).modS3 = (sp - 1) / 15 + 1 := by
  obtain ⟨k, rfl⟩ : ∃ k, sp = k + 1 := ⟨sp - 1, (Nat.succ_pred_eq_of_pos hsp).symm⟩
  rw [seqRun_complete _ hsp]
  simp [releaseCount_formula]

set_option maxRecDepth 10000 in
/-- Witness for `release_count_amended` at the program's configuration
`sequencePeriods = 30`: 15 releases for divisor 2. -/
theorem release_count_amended_witness :
    (1 : Nat) ≤ 30 ∧ (seqRun 30 noAbort 30).modS1 = (30 - 1) / 2 + 1 :=
  ⟨by decide, (release_count_amended 30 (by decide)).1⟩

set_option maxRecDepth 40000 in
/-- Claim C2: with divisors 2, 10, 15 and `total_cycles = 30`, the modulo
rule posts to the divisor-2 service exactly at ticks 0,2,...,28 (15 posts in
total), to the divisor-10 service exactly at ticks 0,10,20 (3 posts), and to
the divisor-15 service exactly at ticks 0 and 15 (2 posts). -/
theorem concrete_schedule_30 :
    (∀ n, n < 30 →
      (((seqRun 30 noAbort (n + 1)).modS1 = (seqRun 30 noAbort n).modS1 + 1) ↔ n % 2 = 0) ∧
      (((seqRun 30 noAbort (n + 1)).modS2 = (seqRun 30 noAbort n).modS2 + 1) ↔ n % 10 = 0) ∧
      (((seqRun 30 noAbort (n + 1)).modS3 = (seqRun 30 noAbort n).modS3 + 1) ↔ n % 15 = 0)) ∧
    (seqRun 30 noAbort 30).modS1 = 15 ∧
    (seqRun 30 noAbort 30).modS2 = 3 ∧
    (seqRun 30 noAbort 30).modS3 = 2 := by decide

set_option maxRecDepth 10000 in
/-- Witness for `concrete_schedule_30` at tick 2: the divisor-2 service is
posted on that tick. -/
theorem concrete_schedule_30_witness :
    (2 : Nat) < 30 ∧
      (((seqRun 30 noAbort 3).modS1 = (seqRun 30 noAbort 2).modS1 + 1) ↔ 2 % 2 = 0) :=
  ⟨by decide, (concrete_schedule_30.1 2 (by decide)).1⟩

/-- Claim C3: in an abort-free run the sequencer keeps the timer armed on
every tick before `total_cycles`, enters the shutdown branch exactly on the
tick whose pre-increment cycle count is `total_cycles - 1` (after which
`seqCnt = total_cycles` and the timer is disarmed), and posts no further
modulo-rule token on any later tick; if the external abort flag is set
before some tick `a` with `a + 1 < total_cycles`, the shutdown branch is
entered on tick `a`, strictly before `total_cycles` ticks have elapsed. -/
theorem termination_after_total_cycles (sp : Nat) (hsp : 1 ≤ sp) :
    ((∀ n, n < sp → (seqRun sp noAbort n).armed = true) ∧
     (seqRun sp noAbort sp).armed = false ∧
     (seqRun sp noAbort sp).seqCnt = sp ∧
     (∀ k, (seqRun sp noAbort (sp + k)).modS1 = (seqRun sp noAbort sp).modS1 ∧
           (seqRun sp noAbort (sp + k)).modS2 = (seqRun sp noAbort sp).modS2 ∧
           (seqRun sp noAbort (sp + k)).modS3 = (seqRun sp noAbort sp).modS3)) ∧
    (∀ a, a + 1 < sp →
      (∀ n, n ≤ a → (seqRun sp (abortFrom a) n).armed = true) ∧
      (seqRun sp (abortFrom a) (a + 1)).armed = false) := by
  refine ⟨⟨?_, ?_, ?_, ?_⟩, ?_⟩
  · intro n hn
    rw [seqRun_running sp noAbort n hn (fun _ _ => rfl)]
    rfl
  · rw [seqRun_complete sp hsp]; rfl
  · rw [seqRun_complete sp hsp]
  · intro k
    rw [seqRun_frozen sp noAbort sp (by rw [seqRun_complete sp hsp]; rfl) k]
    exact ⟨rfl, rfl, rfl⟩
  · intro a ha
    have hablow : ∀ m, m < a → abortFrom a m = false := by
      intro m hm
      simp [abortFrom, Nat.not_le_of_lt hm]
    constructor
    · intro n hn
      have hnlt : n < sp := Nat.lt_of_le_of_lt hn (Nat.lt_of_succ_lt ha)
      rw [seqRun_running sp (abortFrom a) n hnlt
        (fun m hm => hablow m (Nat.lt_of_lt_of_le hm hn))]
      rfl
    · rw [seqRun_step_terminate sp a (abortFrom a) (Nat.lt_of_succ_lt ha) hablow
        (Or.inl (by simp [abortFrom]))]
      rfl

set_option maxRecDepth 10000 in
/-- Witness for `termination_after_total_cycles`: with `total_cycles = 30`
the abort-free run disarms on tick 29 (30 ticks), and an abort set before
tick 5 disarms on tick 5. -/
theorem termination_after_total_cycles_witness :
    (1 : Nat) ≤ 30 ∧ (seqRun 30 noAbort 30).armed = false ∧
      (seqRun 30 (abortFrom 5) 6).armed = false :=
  ⟨by decide, (termination_after_total_cycles 30 (by decide)).1.2.1,
    ((termination_after_total_cycles 30 (by decide)).2 5 (by decide)).2⟩

/-- Claim C4: on every tick whose shutdown branch is entered (external abort
set, or post-increment cycle count at or past `sequencePeriods`), the
handler zeroes the interval timer's interval and value (disarming it), posts
exactly one additional token to every service on top of whatever the modulo
rule posted this tick (due or not), and sets all three per-service abort
flags, all before the handler returns. -/
theorem shutdown_actions_on_termination (sp : Nat) (ab : Bool) (s : SeqState)
    (h : ab = true ∨ sp ≤ s.seqCnt + 1) :
    (Sequencer sp ab s).itimeIntervalNsec = 0 ∧
    (Sequencer sp ab s).itimeValueNsec = 0 ∧
    (Sequencer sp ab s).semS1 = (seqReleasePhase s).semS1 + 1 ∧
    (Sequencer sp ab s).semS2 = (seqReleasePhase s).semS2 + 1 ∧
    (Sequencer sp ab s).semS3 = (seqReleasePhase s).semS3 + 1 ∧
    (Sequencer sp ab s).abortS1 = true ∧
    (Sequencer sp ab s).abortS2 = true ∧
    (Sequencer sp ab s).abortS3 = true := by
  have hcond : (ab || decide (sp ≤ s.seqCnt + 1)) = true := by
    rcases h with h | h <;> simp [h]
  simp [Sequencer, seqShutdown, seqReleasePhase, hcond]

/-- Witness for `shutdown_actions_on_termination` with the abort flag set at
the initial state. -/
theorem shutdown_actions_witness :
    (Sequencer 30 true initialSeqState).itimeValueNsec = 0 ∧
      (Sequencer 30 true initialSeqState).abortS1 = true :=
  ⟨(shutdown_actions_on_termination 30 true initialSeqState (Or.inl rfl)).2.1,
   (shutdown_actions_on_termination 30 true initialSeqState (Or.inl rfl)).2.2.2.2.2.1⟩

/-- Claim C5: on every tick the release condition is evaluated against the
pre-increment cycle counter for all three services, and only then is the
counter incremented — the handler's modulo posts are determined by the
incoming `seqCnt`, whatever the branch taken; consequently on the very first
tick (cycle 0) every service receives a modulo-rule release token,
regardless of the cycle limit and of the abort schedule. -/
theorem release_before_increment :
    (∀ sp : Nat, ∀ ab : Bool, ∀ s : SeqState,
      (Sequencer sp ab s).seqCnt = s.seqCnt + 1 ∧
      (Sequencer sp ab s).modS1 = s.modS1 + (if s.seqCnt % 2 == 0 then 1 else 0) ∧
      (Sequencer sp ab s).modS2 = s.modS2 + (if s.seqCnt % 10 == 0 then 1 else 0) ∧
      (Sequencer sp ab s).modS3 = s.modS3 + (if s.seqCnt % 15 == 0 then 1 else 0)) ∧
    (∀ sp : Nat, ∀ ab : Nat → Bool,
      (seqRun sp ab 1).modS1 = 1 ∧ (seqRun sp ab 1).modS2 = 1 ∧ (seqRun sp ab 1).modS3 = 1 ∧
      1 ≤ (seqRun sp ab 1).semS1 ∧ 1 ≤ (seqRun sp ab 1).semS2 ∧ 1 ≤ (seqRun sp ab 1).semS3) := by
  constructor
  · intro sp ab s
    by_cases hp : sp ≤ s.seqCnt + 1 <;> cases ab <;>
      simp [Sequencer, seqReleasePhase, seqShutdown, hp]
  · intro sp ab
    by_cases hp : sp ≤ 1 <;> cases hab : ab 0 <;>
      simp [seqRun, initialSeqState, SeqState.armed, Sequencer, seqReleasePhase,
        seqShutdown, hp, hab]

/-- Period divisors of the three services, from the `Sequencer`'s release
conditions (seqgen3.c lines 471-477): `seqCnt % 2`, `seqCnt % 10`,
`seqCnt % 15`. -/
def serviceDivisor : Fin 3 → Nat
  | ⟨0, _⟩ => 2
  | ⟨1, _⟩ => 10
  | ⟨2, _⟩ => 15

/-- Real-time priority given to service `i` at thread creation (seqgen3.c
lines 374, 390, 401): `rt_max_prio - 1`, `rt_max_prio - 2`,
`rt_max_prio - 3`.  `rtMax` stands for `sched_get_priority_max(SCHED_FIFO)`
(line 314). -/
def servicePriority (rtMax : Int) (i : Fin 3) : Int := rtMax - (i.val + 1)

/-- Priority of the context executing the `Sequencer`: `main` sets its own
`SCHED_FIFO` priority to `rt_max_prio` (seqgen3.c lines 317-319) and the
sequencer runs as `main`'s SIGALRM handler (line 427). -/
def sequencerPriority (rtMax : Int) : Int := rtMax

/-- Claim C6: the setup priority assignment is rate-monotonic and strictly
monotone — for any two services, the one with the strictly smaller period
divisor gets the strictly higher priority — and the sequencer's priority is
strictly greater than every service's priority. -/
theorem rate_monotonic_priorities (rtMax : Int) :
    (∀ i j : Fin 3, serviceDivisor i < serviceDivisor j →
      servicePriority rtMax j < servicePriority rtMax i) ∧
    (∀ i : Fin 3, servicePriority rtMax i < sequencerPriority rtMax) := by
  constructor
  · intro i j h
    fin_cases i <;> fin_cases j <;>
      simp_all [serviceDivisor, servicePriority]
  · intro i
    fin_cases i <;> simp [servicePriority, sequencerPriority]

/-- Witness for `rate_monotonic_priorities` at `rt_max_prio = 99` (Linux
SCHED_FIFO maximum), services 0 and 1. -/
theorem rate_monotonic_priorities_witness :
    serviceDivisor 0 < serviceDivisor 1 ∧
      servicePriority 99 1 < servicePriority 99 0 :=
  ⟨by decide, (rate_monotonic_priorities 99).1 0 1 (by decide)⟩

/-- Outcomes of the fallible calls in `main`'s startup sequence:
`sem_init` for the three semaphores (seqgen3.c lines 308-310) and
`timer_create` (line 425).  The field `timerCreateOk` records whether
`timer_create` succeeded; the code never inspects that result. -/
structure InitEnv where
  semS1Ok : Bool
  semS2Ok : Bool
  semS3Ok : Bool
  timerCreateOk : Bool
  deriving DecidableEq, Repr

/-- What `main` did by the time it is blocked in `pthread_join`:
whether it called `exit(-1)` before creating any thread, how many service
threads it created, and whether it armed the interval timer (entering the
Running phase). -/
structure StartupResult where
  exitedEarly : Bool
  threadsCreated : Nat
  reachedRunning : Bool
  deriving DecidableEq, Repr

/-- `main`'s startup control flow (seqgen3.c lines 306-440): each failing
`sem_init` prints and calls `exit(-1)` before any `pthread_create`; once the
three semaphores initialize, the three service threads are created (lines
376-403; a `pthread_create` failure is only `perror`ed, never fatal), then
`timer_create` is called with its result ignored (line 425), and the timer
is armed (line 440). -/
def mainStartup (env : InitEnv) : StartupResult :=
  if env.semS1Ok = false then { exitedEarly := true, threadsCreated := 0, reachedRunning := false }
  else if env.semS2Ok = false then { exitedEarly := true, threadsCreated := 0, reachedRunning := false }
  else if env.semS3Ok = false then { exitedEarly := true, threadsCreated := 0, reachedRunning := false }
  else { exitedEarly := false, threadsCreated := 3, reachedRunning := true }

/-- Claim C7, counterexample.  The claim says a failed creation of the
interval timer is fatal before any service thread is created and the
process never reaches Running.  In the code the result of `timer_create`
is never checked (and the call happens after the threads are created): with
all semaphores fine and timer creation failing, startup still creates all
three threads and proceeds to Running. -/
theorem timer_failure_not_fatal :
    (mainStartup ⟨true, true, true, false⟩).reachedRunning = true ∧
      (mainStartup ⟨true, true, true, false⟩).threadsCreated = 3 ∧
      (mainStartup ⟨true, true, true, false⟩).exitedEarly = false := by decide

/-- Claim C7, amended: if creation of any release-token semaphore fails,
the process exits fatally before any service thread is created and never
reaches Running; when all three semaphores initialize, startup creates the
threads and reaches Running irrespective of the (unchecked) `timer_create`
outcome. -/
theorem sem_init_failure_fatal (env : InitEnv) :
    ((env.semS1Ok = false ∨ env.semS2Ok = false ∨ env.semS3Ok = false) →
      mainStartup env =
        { exitedEarly := true, threadsCreated := 0, reachedRunning := false }) ∧
    (env.semS1Ok = true → env.semS2Ok = true → env.semS3Ok = true →
      mainStartup env =
        { exitedEarly := false, threadsCreated := 3, reachedRunning := true }) := by
  constructor
  · intro h
    rcases h with h | h | h <;> simp [mainStartup, h]
  · intro h1 h2 h3
    simp [mainStartup, h1, h2, h3]

/-- Witness for `sem_init_failure_fatal`: a failing first semaphore exits
early; a fully successful environment reaches Running. -/
theorem sem_init_failure_fatal_witness :
    mainStartup ⟨false, true, true, true⟩ =
        { exitedEarly := true, threadsCreated := 0, reachedRunning := false } ∧
      mainStartup ⟨true, true, true, true⟩ =
        { exitedEarly := false, threadsCreated := 3, reachedRunning := true } :=
  ⟨(sem_init_failure_fatal ⟨false, true, true, true⟩).1 (Or.inl rfl),
   (sem_init_failure_fatal ⟨true, true, true, true⟩).2 rfl rfl rfl⟩

/-- Result of a `sem_wait` call as seen by the caller: the wait completed
normally (a token was consumed), or it was interrupted by a signal and
returned with `errno = EINTR` without consuming a token. -/
inductive WaitOutcome
  | ok
  | eintr
  deriving DecidableEq, Repr

/-- Per-service thread state: the private sequence counter (`S1Cnt`,
`S2Cnt`, `S3Cnt`), the number of event records handed to the sink
(`syslogPrint` calls, an observation), and whether the thread has left its
while loop. -/
structure SvcState where
  cnt : Nat
  events : Nat
  exited : Bool
  deriving DecidableEq, Repr

/-- One pass of a service's loop (seqgen3.c lines 527-540, identical in
`Service_1`/`Service_2`/`Service_3`): if the thread already left the loop
nothing happens; otherwise the `while(!abortSi)` condition is checked, and
when it passes the thread performs `sem_wait`, increments its counter and
emits one event record.  The return value of `sem_wait` (`w`) is discarded
by the code (line 530 is a bare `sem_wait(&semS1);`), so the body is the
same whether the wait completed or was interrupted. -/
def servicePass (abortFlag : Bool) (w : WaitOutcome) (s : SvcState) : SvcState :=
  if s.exited then s
  else if abortFlag then { s with exited := true }
  else
    match w with
    | .ok => { s with cnt := s.cnt + 1, events := s.events + 1 }
    | .eintr => { s with cnt := s.cnt + 1, events := s.events + 1 }

/-- A service thread's run: pass `k` observes abort-flag value `ab k` and
wait outcome `ws k`. -/
def serviceRun (ab : Nat → Bool) (ws : Nat → WaitOutcome) : Nat → SvcState
  | 0 => { cnt := 0, events := 0, exited := false }
  | n + 1 => servicePass (ab n) (ws n) (serviceRun ab ws n)

/-- Claim C8, counterexample.  The claim says an interrupted wait never
increments the sequence counter and never emits an event record.  In the
code the `sem_wait` result is ignored: starting from a fresh service state,
a pass whose wait is interrupted increments the counter to 1 and emits one
event record. -/
theorem interrupted_wait_counts :
    ¬ ((servicePass false .eintr { cnt := 0, events := 0, exited := false }).cnt = 0 ∧
       (servicePass false .eintr { cnt := 0, events := 0, exited := false }).events = 0) := by
  decide

/-- Claim C8, amended: the service never inspects the wait result, so an
interrupted wait is not retried but treated exactly like a completed
release — the pass increments the sequence counter and emits an event
record just as for a genuine token, and the interruption is never surfaced
as an error (the behavior is identical for both wait outcomes). -/
theorem wait_outcome_ignored :
    (∀ b : Bool, ∀ w w' : WaitOutcome, ∀ s : SvcState,
      servicePass b w s = servicePass b w' s) ∧
    (∀ s : SvcState, s.exited = false →
      servicePass false .eintr s = { s with cnt := s.cnt + 1, events := s.events + 1 }) := by
  constructor
  · intro b w w' s
    cases w <;> cases w' <;> rfl
  · intro s hs
    simp [servicePass, hs]

/-- Witness for `wait_outcome_ignored` at the fresh service state. -/
theorem wait_outcome_ignored_witness :
    servicePass false .eintr { cnt := 0, events := 0, exited := false } =
      { cnt := 1, events := 1, exited := false } :=
  (wait_outcome_ignored.2 { cnt := 0, events := 0, exited := false } rfl)

/-- Claim C10: every pass that consumes a token increments the private
sequence counter by exactly one and emits exactly one event record before
the abort flag is checked again; the event count always equals the
sequence counter (no consumption goes unreported); a pass that exits the
loop does so at the `while` condition and changes nothing else, so the
thread never exits between consuming a token and emitting its record; and a
service that consumes `k` tokens under a clear abort flag and then the one
forced shutdown token delivers `k + 1` event records — one beyond its
modulo-rule releases — before observing the abort flag and exiting. -/
theorem token_consumption_event_invariant :
    (∀ ab : Nat → Bool, ∀ ws : Nat → WaitOutcome, ∀ n,
      (serviceRun ab ws n).events = (serviceRun ab ws n).cnt) ∧
    (∀ s : SvcState, s.exited = false →
      servicePass false .ok s = { s with cnt := s.cnt + 1, events := s.events + 1 }) ∧
    (∀ s : SvcState, ∀ b : Bool, ∀ w : WaitOutcome,
      (servicePass b w s).exited = true → servicePass b w s = { s with exited := true }) ∧
    (∀ k, serviceRun (fun m => decide (k < m)) (fun _ => .ok) (k + 2) =
      { cnt := k + 1, events := k + 1, exited := true }) := by
  refine ⟨?_, ?_, ?_, ?_⟩
  · intro ab ws n
    induction n with
    | zero => rfl
    | succ n ih =>
      simp only [serviceRun]
      unfold servicePass
      split
      · exact ih
      · split
        · simp [ih]
        · cases ws n <;> simp [ih]
  · intro s hs
    simp [servicePass, hs]
  · intro s b w h
    cases s with
    | mk c e x => cases x <;> cases b <;> cases w <;> simp_all [servicePass]
  · intro k
    have hpre : ∀ n, n ≤ k + 1 →
        serviceRun (fun m => decide (k < m)) (fun _ => .ok) n =
          { cnt := n, events := n, exited := false } := by
      intro n
      induction n with
      | zero => intro _; rfl
      | succ n ih =>
        intro hn
        have hflag : ¬ (k < n) := by omega
        show servicePass (decide (k < n)) .ok _ = _
        rw [ih (Nat.le_of_succ_le hn)]
        simp [servicePass, hflag]
    show servicePass (decide (k < k + 1)) .ok _ = _
    rw [hpre (k + 1) (Nat.le_refl _)]
    simp [servicePass]

/-- Witness for `token_consumption_event_invariant`: a consuming pass from
the fresh state increments both counters to 1, and a service consuming its
15 modulo-rule tokens plus the forced token emits 16 records. -/
theorem token_consumption_event_witness :
    servicePass false .ok { cnt := 0, events := 0, exited := false } =
        { cnt := 1, events := 1, exited := false } ∧
      serviceRun (fun m => decide (15 < m)) (fun _ => .ok) 17 =
        { cnt := 16, events := 16, exited := true } :=
  ⟨token_consumption_event_invariant.2.1 { cnt := 0, events := 0, exited := false } rfl,
   token_consumption_event_invariant.2.2.2 15⟩

/-- `NUM_CPU_CORES` from seqgen3.c line 116. -/
def NUM_CPU_CORES : Nat := 4

/-- CPU core given to service thread `i` through
`pthread_attr_setaffinity_np` (seqgen3.c lines 337-359): even thread
indexes get core 2, odd thread indexes get core 3. -/
def serviceCore (i : Nat) : Nat := if i % 2 == 0 then 2 else 3

/-- The explicit CPU bindings performed during one-time setup, before the
timer is armed.  `sequencerCore` is the core the main thread — whose
SIGALRM context executes the `Sequencer` — is pinned to: `main` never calls
`sched_setaffinity` or `pthread_setaffinity_np` on itself anywhere in
seqgen3.c (lines 257-453), so no such binding exists, even though the file
header (lines 13-16) documents "Sequencer runs on core 1". -/
structure AffinityPlan where
  sequencerCore : Option Nat
  serviceCores : Fin 3 → Nat

/-- The affinity bindings seqgen3.c actually performs at setup. -/
def setupAffinityPlan : AffinityPlan :=
  { sequencerCore := none
    serviceCores := fun i => serviceCore i.val }

/-- Claim C9 (code bug evidence): the service threads are bound by the fixed
even/odd rule — even indexes to core 2, odd indexes to core 3, two disjoint
cores, with cores 0 and 1 of the machine's `NUM_CPU_CORES = 4` left without
any service binding — but the Sequencer's execution context receives no
pinning at all, although both the claim and the file's own header comment
state that it is pinned to the reserved core 1. -/
theorem affinity_plan_no_sequencer_pin :
    setupAffinityPlan.sequencerCore = none ∧
    (∀ i : Fin 3, setupAffinityPlan.serviceCores i =
      if i.val % 2 == 0 then 2 else 3) ∧
    (∀ i j : Fin 3, i.val % 2 = 0 → j.val % 2 = 1 →
      setupAffinityPlan.serviceCores i ≠ setupAffinityPlan.serviceCores j) ∧
    (∀ i : Fin 3, setupAffinityPlan.serviceCores i ≠ 0 ∧
      setupAffinityPlan.serviceCores i ≠ 1 ∧
      setupAffinityPlan.serviceCores i < NUM_CPU_CORES) := by
  refine ⟨rfl, ?_, ?_, ?_⟩
  · intro i
    rfl
  · intro i j hi hj
    fin_cases i <;> fin_cases j <;> simp_all [setupAffinityPlan, serviceCore]
  · intro i
    fin_cases i <;> simp [setupAffinityPlan, serviceCore, NUM_CPU_CORES]

/-- Witness for `affinity_plan_no_sequencer_pin`: service 0 (even, core 2)
and service 1 (odd, core 3) are on disjoint cores. -/
theorem affinity_plan_witness :
    setupAffinityPlan.serviceCores 0 ≠ setupAffinityPlan.serviceCores 1 :=
  affinity_plan_no_sequencer_pin.2.2.1 0 1 rfl rfl
